import Mathlib

/-!
Verification of the export-schedule API route
(`src/app/api/admin/users/exports/schedule/route.ts`).

The four HTTP handlers (`GET`, `POST`, `PATCH`, `DELETE`) are shallowly
embedded as pure functions over an explicit database state holding the
`ExportSchedule` and `ExportScheduleExecution` rows.  The external
collaborators the route consults — the rate limiter (`rateLimit`) and the
permission predicate (`hasPermission`) — are passed in as boolean
parameters.  Request bodies are modelled with `Option` fields so that
absent JSON fields and JavaScript falsiness (`!x`, `x || y`) can be
rendered faithfully.  Runtime failures of the two misused library
surfaces — the nonexistent `crypto.getRandomUUID` method in POST and the
invalid `{ not: ... }` boolean update operation in PATCH — are modelled
as the thrown errors they produce, landing in the handlers' catch
branches.
-/

namespace ExportScheduleApi

/-- An `ExportSchedule` row, with exactly the fields the POST handler writes
via `prisma.exportSchedule.create`.  Timestamps are abstract instants
(`Nat`). -/
structure ExportSchedule where
  id : String
  name : String
  description : Option String
  frequency : String
  format : String
  recipients : List String
  dayOfWeek : Option Int
  dayOfMonth : Option Int
  time : String
  emailSubject : Option String
  emailBody : Option String
  filterPresetId : Option String
  isActive : Bool
  tenantId : String
  userId : String
  createdAt : Nat
  updatedAt : Nat
deriving Repr, DecidableEq

/-- An `ExportScheduleExecution` row.  The route touches executions only
through `prisma.exportScheduleExecution.deleteMany` (keyed by `scheduleId`)
and the `_count` annotation in GET, so only the identifying fields are
modelled. -/
structure ExportScheduleExecution where
  id : String
  scheduleId : String
deriving Repr, DecidableEq

/-- The persistent state the route reads and writes: the two Prisma tables. -/
structure Db where
  schedules : List ExportSchedule
  executions : List ExportScheduleExecution
deriving Repr, DecidableEq

/-- The tenant context `requireTenantContext` passes to each handler body. -/
structure TenantContext where
  tenantId : String
  userId : String
deriving Repr, DecidableEq

/-- JavaScript falsiness of a possibly-absent string value: `!x` is true
for `undefined` and for the empty string. -/
def strFalsy : Option String → Bool
  | none => true
  | some s => s.isEmpty

/-- JavaScript `x || null` for a possibly-absent number: `undefined` and the
falsy number `0` both collapse to `null`. -/
def numOrNull : Option Int → Option Int
  | none => none
  | some v => if v = 0 then none else some v

/-- JavaScript `x || dflt` for a possibly-absent string: `undefined` and the
falsy empty string both fall back to the default. -/
def strOrDefault (dflt : String) : Option String → String
  | none => dflt
  | some s => if s.isEmpty then dflt else s

/-- JavaScript `x || null` for a possibly-absent string. -/
def strOrNull : Option String → Option String
  | none => none
  | some s => if s.isEmpty then none else some s

/-- The characters matched by the JavaScript regex class `\s`. -/
def jsWhitespace (c : Char) : Bool :=
  c == ' ' || c == '\t' || c == '\n' || c == '\r' || c == '\u000B'
    || c == '\u000C' || c == '\u00A0' || c == '\u1680'
    || (0x2000 ≤ c.toNat && c.toNat ≤ 0x200A)
    || c == '\u2028' || c == '\u2029' || c == '\u202F' || c == '\u205F'
    || c == '\u3000' || c == '\uFEFF'

/-- Splits a character list at every occurrence of `sep`, returning the
segment before the first separator and the remaining segments.  Auxiliary
for the JavaScript `String.prototype.split` semantics. -/
def splitCharListCore (sep : Char) : List Char → List Char × List (List Char)
  | [] => ([], [])
  | c :: cs =>
      let r := splitCharListCore sep cs
      if c = sep then ([], r.1 :: r.2) else (c :: r.1, r.2)

/-- All segments of a character list split at `sep`; always non-empty, and
splitting the empty list yields one empty segment, exactly as in
JavaScript (`[]` splits to `[""]`). -/
def splitCharList (sep : Char) (l : List Char) : List (List Char) :=
  (splitCharListCore sep l).1 :: (splitCharListCore sep l).2

/-- JavaScript `s.split(',')` as used by the DELETE handler on the `ids`
query parameter: in particular the empty string splits to `[""]`, a list of
length 1, not to `[]`. -/
def jsSplitComma (s : String) : List String :=
  (splitCharList ',' s.toList).map (fun l => String.mk l)

/-- Whether a string matches the POST handler's email regex
`/^[^\s@]+@[^\s@]+\.[^\s@]+$/`: exactly one `@`; a non-empty run of
non-whitespace, non-`@` characters before it; after it a non-empty run of
such characters containing a `.` that is neither its first nor its last
character (the regex splits the domain part as `[^\s@]+ . [^\s@]+`, and
`.` itself belongs to the class `[^\s@]`). -/
def emailRegexTest (s : String) : Bool :=
  match splitCharList '@' s.toList with
  | [localPart, domainPart] =>
      !localPart.isEmpty && localPart.all (fun c => !jsWhitespace c)
        && !domainPart.isEmpty && domainPart.all (fun c => !jsWhitespace c)
        && ((domainPart.drop 1).dropLast).contains '.'
  | _ => false

/-- The JSON body of a POST request, with the fields the handler
destructures.  `none` models an absent field. -/
structure PostBody where
  name : Option String
  description : Option String
  frequency : Option String
  format : Option String
  recipients : Option (List String)
  dayOfWeek : Option Int
  dayOfMonth : Option Int
  time : Option String
  emailSubject : Option String
  emailBody : Option String
  filterPresetId : Option String
  isActive : Option Bool
deriving Repr, DecidableEq

/-- The format whitelist the POST handler checks with
`['csv', 'xlsx', 'json', 'pdf'].includes(format)`. -/
def validFormats : List String := ["csv", "xlsx", "json", "pdf"]

/-- `prisma.exportSchedule.count({ where: { tenantId } })`. -/
def tenantCount (db : Db) (t : String) : Nat :=
  (db.schedules.filter (fun s => s.tenantId == t)).length

/-- The object literal the POST handler builds for
`prisma.exportSchedule.create`, as a function of the value `newId` its
`id:` expression would produce: `dayOfWeek || null`, `dayOfMonth || null`,
`time || '09:00'`, `filterPresetId || null`, the destructuring default
`isActive = true`, the caller's tenant and user, and fresh timestamps.
At runtime this literal is never completed, because evaluating the `id:`
expression throws (see `cryptoGetRandomUUID`); the `POST` embedding
accordingly reaches this payload only in the dead success branch of that
call. -/
def buildSchedule (ctx : TenantContext) (b : PostBody) (newId : String)
    (now : Nat) : ExportSchedule where
  id := newId
  name := b.name.getD ("")
  description := b.description
  frequency := b.frequency.getD ("")
  format := b.format.getD ("")
  recipients := b.recipients.getD []
  dayOfWeek := numOrNull b.dayOfWeek
  dayOfMonth := numOrNull b.dayOfMonth
  time := strOrDefault ("09:00") b.time
  emailSubject := b.emailSubject
  emailBody := b.emailBody
  filterPresetId := strOrNull b.filterPresetId
  isActive := b.isActive.getD true
  tenantId := ctx.tenantId
  userId := ctx.userId
  createdAt := now
  updatedAt := now

/-- The call `crypto.getRandomUUID()` the POST handler makes while building
the create payload.  No import shadows `crypto`, so this is the ambient Web
Crypto global, which defines `randomUUID` and `getRandomValues` but no
`getRandomUUID`: the property access yields `undefined` and calling it
throws a `TypeError` before `prisma.exportSchedule.create` is invoked.
Modelled as the `Except` outcome of the call. -/
def cryptoGetRandomUUID : Except String String :=
  .error ("TypeError: crypto.getRandomUUID is not a function")

/-- Outcome of the POST handler, one constructor per distinct
`NextResponse.json` exit. -/
inductive PostResult where
  /-- 429 Rate limit exceeded. -/
  | rateLimited
  /-- 403 Forbidden. -/
  | forbidden
  /-- 400 Missing required fields: name, frequency, format, recipients. -/
  | missingFields
  /-- 400 Invalid export format. -/
  | invalidFormat
  /-- 400 One or more recipient emails are invalid. -/
  | invalidRecipients
  /-- 400 Maximum number of export schedules (20) reached for this tenant. -/
  | quotaExceeded
  /-- 500 Failed to create export schedule (the catch block, reached by the
  `TypeError` thrown while building the create payload). -/
  | internalError
  /-- 200 success with the created schedule (unreachable at runtime: building
  the payload throws first). -/
  | created (s : ExportSchedule)
deriving Repr, DecidableEq

/-- The POST handler: rate limit, permission check, required-field check,
format whitelist, email regex over all recipients, the 20-per-tenant quota
check, then the create — whose payload evaluation throws at
`crypto.getRandomUUID()`, so the catch block answers 500 and nothing is
written.  Returns the response and the resulting database. -/
def POST (db : Db) (ctx : TenantContext) (rateLimitSuccess hasAccess : Bool)
    (b : PostBody) (now : Nat) : PostResult × Db :=
  if !rateLimitSuccess then (.rateLimited, db)
  else if !hasAccess then (.forbidden, db)
  else if strFalsy b.name || strFalsy b.frequency || strFalsy b.format
      || (b.recipients.getD []).isEmpty then (.missingFields, db)
  else if !(validFormats.contains (b.format.getD (""))) then
    (.invalidFormat, db)
  else if (b.recipients.getD []).any (fun e => !emailRegexTest e) then
    (.invalidRecipients, db)
  else if 20 ≤ tenantCount db ctx.tenantId then (.quotaExceeded, db)
  else
    match cryptoGetRandomUUID with
    | .error _ => (.internalError, db)
    | .ok newId =>
        let s := buildSchedule ctx b newId now
        (.created s, ⟨db.schedules ++ [s], db.executions⟩)

/-- Outcome of the GET handler. -/
inductive GetResult where
  /-- 429 Rate limit exceeded. -/
  | rateLimited
  /-- 403 Forbidden. -/
  | forbidden
  /-- 200 with the tenant's schedules, each annotated with its execution
  count. -/
  | ok (schedules : List (ExportSchedule × Nat))
deriving Repr, DecidableEq

/-- `_count.executions` for one schedule id. -/
def executionCount (db : Db) (sid : String) : Nat :=
  (db.executions.filter (fun e => e.scheduleId == sid)).length

/-- Inserts a schedule into a list sorted by `createdAt` descending. -/
def insertByCreatedAtDesc (s : ExportSchedule) :
    List ExportSchedule → List ExportSchedule
  | [] => [s]
  | t :: ts =>
      if t.createdAt ≤ s.createdAt then s :: t :: ts
      else t :: insertByCreatedAtDesc s ts

/-- Sorts schedules by `createdAt` descending (`orderBy: createdAt desc`). -/
def sortByCreatedAtDesc : List ExportSchedule → List ExportSchedule
  | [] => []
  | s :: ss => insertByCreatedAtDesc s (sortByCreatedAtDesc ss)

/-- The GET handler: rate limit, permission check, then
`findMany({ where: { tenantId }, include: { _count }, orderBy })`. -/
def GET (db : Db) (ctx : TenantContext) (rateLimitSuccess hasAccess : Bool) :
    GetResult × Db :=
  if !rateLimitSuccess then (.rateLimited, db)
  else if !hasAccess then (.forbidden, db)
  else
    let rows := sortByCreatedAtDesc
      (db.schedules.filter (fun s => s.tenantId == ctx.tenantId))
    (.ok (rows.map (fun s => (s, executionCount db s.id))), db)

/-- A Prisma update operation for a `Boolean` column inside `updateMany`'s
`data`.  Prisma's `BoolFieldUpdateOperationsInput` accepts only the
operation `set`; supplying any other key — such as the *filter* operator
`not`, which is valid only in `where` clauses — makes the Prisma client
reject the whole query with a `PrismaClientValidationError` before any row
is touched.  `notArg v` represents the source's `{ not: v }`. -/
inductive BoolUpdate where
  | set (b : Bool)
  | notArg (b : Bool)
deriving Repr, DecidableEq

/-- `prisma.exportSchedule.updateMany({ where: { id: { in: ids } }, data:
{ isActive: u } })`.  Note the `where` clause has no `tenantId` condition.
A `set` update rewrites every matching row; a `notArg` update is rejected
by the client's input validation, modifying nothing. -/
def updateManyIsActive (db : Db) (ids : List String) (u : BoolUpdate) :
    Except String Db :=
  match u with
  | .set b =>
      .ok ⟨db.schedules.map
        (fun s => if ids.contains s.id then { s with isActive := b } else s),
        db.executions⟩
  | .notArg _ => .error ("Unknown argument `not` in data.isActive")

/-- Outcome of the PATCH handler. -/
inductive PatchResult where
  /-- 429 Rate limit exceeded. -/
  | rateLimited
  /-- 403 Forbidden. -/
  | forbidden
  /-- 200 success with message Schedules updated. -/
  | updated
  /-- 400 Invalid action. -/
  | invalidAction
  /-- 500 Failed to update export schedules (the catch block). -/
  | internalError
deriving Repr, DecidableEq

/-- The PATCH handler: rate limit, permission check, then — when the body
is `{ action: 'toggleActive', scheduleIds: [...] }` — an `updateMany` with
`data: { isActive: { not: true } }` over the listed ids (no tenant filter).
A thrown Prisma error is caught and surfaced as the 500 response. -/
def PATCH (db : Db) (ctx : TenantContext) (rateLimitSuccess hasAccess : Bool)
    (action : Option String) (scheduleIds : Option (List String)) :
    PatchResult × Db :=
  if !rateLimitSuccess then (.rateLimited, db)
  else if !hasAccess then (.forbidden, db)
  else
    match action, scheduleIds with
    | some a, some ids =>
        if a == "toggleActive" then
          match updateManyIsActive db ids (.notArg true) with
          | .ok db2 => (.updated, db2)
          | .error _ => (.internalError, db)
        else (.invalidAction, db)
    | _, _ => (.invalidAction, db)

/-- Outcome of the DELETE handler. -/
inductive DeleteResult where
  /-- 429 Rate limit exceeded. -/
  | rateLimited
  /-- 403 Forbidden. -/
  | forbidden
  /-- 400 No schedule IDs provided. -/
  | noIds
  /-- 200 success with the deleted row count. -/
  | deleted (count : Nat)
deriving Repr, DecidableEq

/-- The DELETE handler: rate limit, permission check, ids from
`searchParams.get('ids')?.split(',') || []`, then
`exportScheduleExecution.deleteMany({ where: { scheduleId: { in: ids } } })`
followed by `exportSchedule.deleteMany({ where: { id: { in: ids } } })`,
returning the schedule delete count.  Neither `where` clause mentions
`tenantId`. -/
def DELETE (db : Db) (ctx : TenantContext) (rateLimitSuccess hasAccess : Bool)
    (idsParam : Option String) : DeleteResult × Db :=
  if !rateLimitSuccess then (.rateLimited, db)
  else if !hasAccess then (.forbidden, db)
  else
    let ids : List String := match idsParam with
      | some s => jsSplitComma s
      | none => []
    if ids.length = 0 then (.noIds, db)
    else
      let remainingExecutions :=
        db.executions.filter (fun e => !ids.contains e.scheduleId)
      let deletedSchedules :=
        db.schedules.filter (fun t => ids.contains t.id)
      let remainingSchedules :=
        db.schedules.filter (fun t => !ids.contains t.id)
      (.deleted deletedSchedules.length,
        ⟨remainingSchedules, remainingExecutions⟩)

/-- A conjunction of the POST handler's own validation conditions: the
required fields are non-falsy, the recipients list is present and
non-empty, the format is whitelisted, and every recipient passes the
email regex. -/
def postInputValid (b : PostBody) : Bool :=
  !strFalsy b.name && !strFalsy b.frequency && !strFalsy b.format
    && !(b.recipients.getD []).isEmpty
    && validFormats.contains (b.format.getD (""))
    && (b.recipients.getD []).all emailRegexTest

/-- Modelled from the spec: the Recurrence Engine's `nextFireTime` for
`frequency = weekly` is not present in the source files (the spec defines
it in its section on the Recurrence Engine).  Timestamps are minutes in
the single configured zone; a day is 1440 minutes, a week 10080, and the
day-of-week of an instant `t` is `t / 1440 % 7`.  The weekly rule: the
next occurrence of `dayOfWeek` at `timeOfDay` strictly after `after`; if
`after` falls exactly on that day and time, advance a full week. -/
def nextFireTimeWeekly (dayOfWeek timeOfDay after : Nat) : Nat :=
  if after < after / 10080 * 10080 + dayOfWeek * 1440 + timeOfDay then
    after / 10080 * 10080 + dayOfWeek * 1440 + timeOfDay
  else
    after / 10080 * 10080 + dayOfWeek * 1440 + timeOfDay + 10080

/-- A caller context for the concrete evaluations below. -/
def ctx0 : TenantContext := ⟨"tenant-1", "user-1"⟩

/-- The empty database. -/
def emptyDb : Db := ⟨[], []⟩

/-- A fully valid POST body used as the base of the concrete evaluations. -/
def baseBody : PostBody where
  name := some ("Weekly export")
  description := none
  frequency := some ("weekly")
  format := some ("csv")
  recipients := some ["admin@example.com"]
  dayOfWeek := some 1
  dayOfMonth := none
  time := some ("09:00")
  emailSubject := none
  emailBody := none
  filterPresetId := none
  isActive := some true

/-- `baseBody` with the unrecognized frequency string hourly. -/
def hourlyBody : PostBody := { baseBody with frequency := some ("hourly") }

/-- `baseBody` as a weekly schedule on Sunday (`dayOfWeek = 0`). -/
def sundayBody : PostBody := { baseBody with dayOfWeek := some 0 }

/-- `baseBody` as a weekly schedule with no `dayOfWeek` supplied. -/
def noDowBody : PostBody := { baseBody with dayOfWeek := none }

/-- `baseBody` with `time` and `isActive` omitted. -/
def defaultsBody : PostBody :=
  { baseBody with time := none, isActive := none }

/-- `baseBody` with a recipient that fails the email regex. -/
def badEmailBody : PostBody :=
  { baseBody with recipients := some ["not-an-email"] }

/-- `baseBody` with a multi-address list of syntactically valid
recipients. -/
def multiRecipientsBody : PostBody :=
  { baseBody with
    recipients := some ["admin@example.com", "ops@example.com"] }

/-- An active schedule of the caller's tenant, id s1. -/
def activeSchedule : ExportSchedule where
  id := "s1"
  name := "Tenant one export"
  description := none
  frequency := "daily"
  format := "csv"
  recipients := ["admin@example.com"]
  dayOfWeek := none
  dayOfMonth := none
  time := "09:00"
  emailSubject := none
  emailBody := none
  filterPresetId := none
  isActive := true
  tenantId := "tenant-1"
  userId := "user-1"
  createdAt := 0
  updatedAt := 0

/-- A schedule belonging to a different tenant than `ctx0`, id s2. -/
def otherTenantSchedule : ExportSchedule :=
  { activeSchedule with
    id := "s2"
    name := "Other tenant export"
    tenantId := "tenant-2"
    userId := "user-2" }

/-- A database holding only the foreign tenant's schedule. -/
def crossTenantDb : Db := ⟨[otherTenantSchedule], []⟩

/-- A database holding one active schedule of the caller's tenant. -/
def toggleDb : Db := ⟨[activeSchedule], []⟩

/-- A database in which `ctx0`'s tenant already holds 20 schedules. -/
def db20 : Db := ⟨List.replicate 20 activeSchedule, []⟩

/-- An execution row attached to schedule s1. -/
def executionS1 : ExportScheduleExecution := ⟨"e1", "s1"⟩

/-- An execution row attached to the foreign schedule s2. -/
def executionS2 : ExportScheduleExecution := ⟨"e2", "s2"⟩

/-- A two-tenant database with executions, for the bulk-delete witness. -/
def deleteDb : Db :=
  ⟨[activeSchedule, otherTenantSchedule], [executionS1, executionS2]⟩

/-- `baseBody` with an empty recipients list. -/
def emptyRecipientsBody : PostBody := { baseBody with recipients := some [] }

theorem length_filter_add_length_filter_not {α : Type} (p : α → Bool)
    (l : List α) :
    (l.filter p).length + (l.filter (fun x => !p x)).length = l.length := by
  induction l with
  | nil => rfl
  | cons x xs ih =>
      by_cases h : p x = true <;> simp [List.filter_cons, h] <;> omega

theorem delete_some_eq (db : Db) (ctx : TenantContext) (s : String) :
    DELETE db ctx true true (some s) =
      (.deleted ((db.schedules.filter
          (fun t => (jsSplitComma s).contains t.id)).length),
        ⟨db.schedules.filter (fun t => !(jsSplitComma s).contains t.id),
         db.executions.filter
           (fun e => !(jsSplitComma s).contains e.scheduleId)⟩) := by
  have hlen : (jsSplitComma s).length ≠ 0 := by
    simp [jsSplitComma, splitCharList]
  simp [DELETE, hlen]

/-- C8: for every handler, admission runs in fixed order before any other
processing: a rate-limiter denial yields the 429 result whatever the
capability check would say, a capability denial after a rate-limit pass
yields the 403 result, and in both cases the database is returned
untouched. -/
theorem c8_admission_fixed_order (db : Db) (ctx : TenantContext)
    (b : PostBody) (now : Nat) (action : Option String)
    (scheduleIds : Option (List String)) (idsParam : Option String) :
    (∀ acc : Bool, GET db ctx false acc = (.rateLimited, db))
    ∧ GET db ctx true false = (.forbidden, db)
    ∧ (∀ acc : Bool, POST db ctx false acc b now = (.rateLimited, db))
    ∧ POST db ctx true false b now = (.forbidden, db)
    ∧ (∀ acc : Bool,
        PATCH db ctx false acc action scheduleIds = (.rateLimited, db))
    ∧ PATCH db ctx true false action scheduleIds = (.forbidden, db)
    ∧ (∀ acc : Bool, DELETE db ctx false acc idsParam = (.rateLimited, db))
    ∧ DELETE db ctx true false idsParam = (.forbidden, db) := by
  refine ⟨fun acc => ?_, ?_, fun acc => ?_, ?_, fun acc => ?_, ?_,
    fun acc => ?_, ?_⟩ <;> simp [GET, POST, PATCH, DELETE]

/-- C9: for a weekly schedule (modelled from the spec, day-of-week
`d < 7`, time-of-day `m < 1440` minutes), `nextFireTimeWeekly d m after`
is strictly greater than `after`, falls on day-of-week `d` at time-of-day
`m`, and when `after` itself falls exactly on that day and time the result
is exactly one week (10080 minutes) later. -/
theorem c9_weekly_next_fire (d m after : Nat) (hd : d < 7)
    (hm : m < 1440) :
    after < nextFireTimeWeekly d m after
    ∧ nextFireTimeWeekly d m after / 1440 % 7 = d
    ∧ nextFireTimeWeekly d m after % 1440 = m
    ∧ (after % 1440 = m → after / 1440 % 7 = d →
        nextFireTimeWeekly d m after = after + 10080) := by
  unfold nextFireTimeWeekly
  split
  · refine ⟨?_, ?_, ?_, fun h1 h2 => ?_⟩ <;> omega
  · refine ⟨?_, ?_, ?_, fun h1 h2 => ?_⟩ <;> omega

/-- C9 witness: a Monday schedule at 09:00 evaluated from instant 0. -/
theorem c9_weekly_next_fire_witness :
    0 < nextFireTimeWeekly 1 540 0
    ∧ nextFireTimeWeekly 1 540 0 % 1440 = 540 :=
  ⟨(c9_weekly_next_fire 1 540 0 (by decide) (by decide)).1,
   (c9_weekly_next_fire 1 540 0 (by decide) (by decide)).2.2.1⟩

/-- C2: refuted by the code — the quota gate itself holds (a valid create
against a tenant already holding 20 schedules is refused with the quota
error and no write), but the claim's success half is false: a valid
create against a tenant holding fewer than 20 schedules does not succeed
either, because the handler throws a `TypeError` evaluating
`crypto.getRandomUUID()` (the Web Crypto method is `randomUUID`) and
answers with the 500 catch response, writing nothing — so in particular
the 20th schedule is never created. -/
theorem c2_create_never_succeeds :
    tenantCount db20 ctx0.tenantId = 20
    ∧ postInputValid baseBody = true
    ∧ POST db20 ctx0 true true baseBody 5 = (.quotaExceeded, db20)
    ∧ tenantCount emptyDb ctx0.tenantId = 0
    ∧ POST emptyDb ctx0 true true baseBody 5 = (.internalError, emptyDb) := by
  decide

/-- C4: refuted by the code — the rejection halves hold exactly as
claimed (an empty recipients list yields the missing-fields 400 and a
malformed address the invalid-recipients 400, both with no write), but a
non-empty list of syntactically valid addresses still does not make the
create succeed: after validation passes, the handler throws at
`crypto.getRandomUUID()` and answers with the 500 catch response, writing
nothing. -/
theorem c4_valid_recipients_do_not_succeed :
    POST emptyDb ctx0 true true emptyRecipientsBody 0
        = (.missingFields, emptyDb)
    ∧ POST emptyDb ctx0 true true badEmailBody 0
        = (.invalidRecipients, emptyDb)
    ∧ (multiRecipientsBody.recipients.getD []).all emailRegexTest = true
    ∧ POST emptyDb ctx0 true true multiRecipientsBody 0
        = (.internalError, emptyDb) := by
  decide

/-- C10: refuted by the code — the claim is about the persisted row of a
successful create, but no create ever persists anything: an
otherwise-valid body omitting `isActive` and `time` passes every
validation check and then fails with the 500 catch response at
`crypto.getRandomUUID()`, leaving the database unchanged.  The payload
the source builds (before the throwing `id:` expression is evaluated)
would indeed carry `isActive = true` and `time = 09:00`. -/
theorem c10_no_create_ever_persists :
    defaultsBody.isActive = none
    ∧ defaultsBody.time = none
    ∧ postInputValid defaultsBody = true
    ∧ POST emptyDb ctx0 true true defaultsBody 0 = (.internalError, emptyDb)
    ∧ (buildSchedule ctx0 defaultsBody ("id-d") 0).isActive = true
    ∧ (buildSchedule ctx0 defaultsBody ("id-d") 0).time = "09:00" := by
  decide

/-- C3: DELETE with an ids parameter reports as the deleted count exactly
the number of schedule rows it removed; every execution whose
`scheduleId` is listed is removed and every other execution survives;
every listed schedule is removed while every unlisted schedule survives
(partial id sets are partial successes, not all-or-nothing failures); and
no surviving execution references a listed — hence deleted — schedule
id. -/
theorem c3_bulk_delete_cascade (db : Db) (ctx : TenantContext) (s : String)
    (res : DeleteResult) (db2 : Db)
    (h : DELETE db ctx true true (some s) = (res, db2)) :
    res = .deleted (db.schedules.length - db2.schedules.length)
    ∧ (∀ e, e ∈ db.executions →
        ((jsSplitComma s).contains e.scheduleId = true →
            e ∉ db2.executions)
        ∧ ((jsSplitComma s).contains e.scheduleId = false →
            e ∈ db2.executions))
    ∧ (∀ t, t ∈ db.schedules →
        ((jsSplitComma s).contains t.id = true → t ∉ db2.schedules)
        ∧ ((jsSplitComma s).contains t.id = false → t ∈ db2.schedules))
    ∧ (∀ e, e ∈ db2.executions →
        (jsSplitComma s).contains e.scheduleId = false) := by
  rw [delete_some_eq] at h
  have hres : res = .deleted ((db.schedules.filter
      (fun t => (jsSplitComma s).contains t.id)).length) :=
    congrArg Prod.fst h.symm
  have hdb : db2 = ⟨db.schedules.filter
        (fun t => !(jsSplitComma s).contains t.id),
      db.executions.filter
        (fun e => !(jsSplitComma s).contains e.scheduleId)⟩ :=
    congrArg Prod.snd h.symm
  subst hdb
  refine ⟨?_, fun e he => ⟨fun hin => ?_, fun hout => ?_⟩,
    fun t ht => ⟨fun hin => ?_, fun hout => ?_⟩, fun e he => ?_⟩
  · have hsum := length_filter_add_length_filter_not
      (fun t => (jsSplitComma s).contains t.id) db.schedules
    rw [hres]
    show DeleteResult.deleted ((db.schedules.filter
        (fun t => (jsSplitComma s).contains t.id)).length)
      = DeleteResult.deleted (db.schedules.length
        - (db.schedules.filter
            (fun t => !(jsSplitComma s).contains t.id)).length)
    congr 1
    omega
  · simp only [List.mem_filter]
    rintro ⟨-, hmem⟩
    rw [hin] at hmem
    simp at hmem
  · simp only [List.mem_filter]
    exact ⟨he, by rw [hout]; rfl⟩
  · simp only [List.mem_filter]
    rintro ⟨-, hmem⟩
    rw [hin] at hmem
    simp at hmem
  · simp only [List.mem_filter]
    exact ⟨ht, by rw [hout]; rfl⟩
  · simp only [List.mem_filter] at he
    have h2 := he.2
    cases hc : (jsSplitComma s).contains e.scheduleId
    · rfl
    · rw [hc] at h2
      simp at h2

/-- C3 witness: deleting ids s1,sX (s1 existing, sX unknown) removes
schedule s1 and its execution while the unlisted schedule s2 and its
execution survive. -/
theorem c3_bulk_delete_cascade_witness :
    executionS1 ∉ (DELETE deleteDb ctx0 true true (some ("s1,sX"))).2.executions
    ∧ otherTenantSchedule
        ∈ (DELETE deleteDb ctx0 true true (some ("s1,sX"))).2.schedules := by
  have h := c3_bulk_delete_cascade deleteDb ctx0 ("s1,sX")
    (DELETE deleteDb ctx0 true true (some ("s1,sX"))).1
    (DELETE deleteDb ctx0 true true (some ("s1,sX"))).2 rfl
  exact ⟨(h.2.1 executionS1 (by decide)).1 (by decide),
    (h.2.2.1 otherTenantSchedule (by decide)).2 (by decide)⟩

/-- C1: refuted by the code — the DELETE handler's `where` clauses filter
only by id, never by `tenantId`, so an id belonging to a different tenant
than the caller is deleted and counted: caller `ctx0` of tenant-1 deletes
the tenant-2 schedule s2 and receives deletedCount 1. -/
theorem c1_cross_tenant_rows_affected :
    ctx0.tenantId ≠ otherTenantSchedule.tenantId
    ∧ DELETE crossTenantDb ctx0 true true (some ("s2"))
        = (.deleted 1, ⟨[], []⟩) := by decide

/-- C5: refuted by the code — the POST handler whitelists `format` but
never checks `frequency` beyond truthiness: the unrecognized non-empty
frequency string hourly satisfies every validation check the handler
performs (`postInputValid`), so the request is not refused with a
validation error naming frequency; it instead reaches the create and
fails there with the generic 500 of the broken `crypto.getRandomUUID()`
call, the same outcome as a fully valid input. -/
theorem c5_unrecognized_frequency_passes_validation :
    hourlyBody.frequency = some ("hourly")
    ∧ postInputValid hourlyBody = true
    ∧ POST emptyDb ctx0 true true hourlyBody 0
        = (.internalError, emptyDb) := by
  decide

/-- C6: refuted by the code — `dayOfWeek` is never validated: a weekly
create with no `dayOfWeek` passes every validation check instead of
failing with a validation error, and a weekly create with the valid
Sunday value `dayOfWeek = 0` does too (both then end in the 500 of the
broken crypto call rather than any validation failure).  Moreover the
create payload the source builds maps the supplied value 0 to `null`
through `dayOfWeek || null` (0 is falsy), so the claim's `persists 0`
could not hold even with working id generation. -/
theorem c6_day_of_week_mishandled :
    sundayBody.frequency = some ("weekly")
    ∧ sundayBody.dayOfWeek = some 0
    ∧ postInputValid sundayBody = true
    ∧ POST emptyDb ctx0 true true sundayBody 0 = (.internalError, emptyDb)
    ∧ (buildSchedule ctx0 sundayBody ("sched-6") 0).dayOfWeek = none
    ∧ noDowBody.frequency = some ("weekly")
    ∧ noDowBody.dayOfWeek = none
    ∧ postInputValid noDowBody = true
    ∧ POST emptyDb ctx0 true true noDowBody 0
        = (.internalError, emptyDb) := by
  decide

/-- C7: refuted by the code — the PATCH handler's bulk toggle sends the
update payload `{ isActive: { not: true } }`, which Prisma's boolean
update input (`set` only) rejects, so the request ends in the 500 catch
branch and no schedule's `isActive` is flipped: the active schedule s1 is
returned unchanged. -/
theorem c7_bulk_toggle_never_flips :
    PATCH toggleDb ctx0 true true (some ("toggleActive")) (some ["s1"])
      = (.internalError, toggleDb)
    ∧ activeSchedule.id = "s1"
    ∧ activeSchedule.isActive = true
    ∧ toggleDb.schedules = [activeSchedule] := by decide

end ExportScheduleApi
